import Mathlib

/-!
Shallow embedding of the script analysis and rewrite engine of
`src/index.js` (class `YTScriptOptimizer`), together with proofs about the
claims on its specification.

Modelling conventions:
* JS strings are modelled as Lean `String`; all scripts and keywords in this
  development are ASCII, so `String.length`/character indexing coincide with
  JS UTF-16 lengths and `toLowerCase` coincides with `Char.toLower`.
* JS numbers are modelled exactly by `JsNum`: a rational `num n d` (with
  positive denominator by construction, not normalised), `nan`, `inf` and
  `negInf`.  Every numeric value produced by the engine is an exact small
  rational, far from the boundaries used in comparisons, so double rounding
  of the original JS program cannot change any branch taken here.
* The wall-clock timestamp `new Date().toISOString()` (src/index.js:265) and
  the random hook-phrase draw `Math.floor(Math.random() * hookPhrases.length)`
  (src/index.js:465) are the only impure inputs of the engine; they are
  modelled as explicit parameters `now : String` and `hookIdx : Fin 5`.
* `analyzeScript` escapes regex metacharacters before matching
  (src/index.js:298), so its keyword matching is literal case-insensitive
  substring counting.  `generateOptimizations` (line 418) and
  `suggestKeywordInsertions` (line 581) build `new RegExp(kw, 'gi')` WITHOUT
  escaping: for metacharacter-free keywords this is the same literal
  matching; for syntactically invalid patterns (e.g. an unbalanced "(" )
  the JS engine throws a `SyntaxError` at construction, modelled as
  `JsErr.regexSyntax`; valid patterns that do contain metacharacters match
  under full regex semantics, which this embedding does not model and flags
  as `JsErr.unmodelled`.  Theorems about those code paths therefore carry a
  `hasRegexMeta kw = false` hypothesis.
* JS object-literal lookups with a caller-supplied key
  (`{light: 1, ...}[level] || 2`, `structureGuide[contentStyle] || ...`,
  `styleTips[contentStyle] || []`) are modelled by `JsLookup`: a key
  inherited from `Object.prototype` (e.g. "constructor") yields the truthy
  inherited member, so the `||` default is NOT applied; a numeric comparison
  against it is false (`NaN`), and spreading it throws a `TypeError`
  (`JsErr.typeError`, thrown by `getScriptTips`).
-/

set_option maxRecDepth 40000

namespace YTSO

/-- JS whitespace as matched by the regex class `\s` (ASCII fragment). -/
def jsWs (c : Char) : Bool :=
  c = ' ' || c = '\t' || c = '\n' || c = '\r' || c = '\x0b' || c = '\x0c'

/-- The sentence-terminator class `[.!?]` of the source. -/
def sentencePunctChar (c : Char) : Bool :=
  c = '.' || c = '!' || c = '?'

mutual
/-- Worker for `splitRuns`: `acc` is the current piece, reversed. -/
def splitRunsGo (p : Char → Bool) : List Char → List Char → List String
  | [], acc => [String.mk acc.reverse]
  | c :: cs, acc =>
    if p c then String.mk acc.reverse :: splitRunsSkip p cs
    else splitRunsGo p cs (c :: acc)

/-- Worker for `splitRuns`: consuming the rest of a separator run. -/
def splitRunsSkip (p : Char → Bool) : List Char → List String
  | [] => [""]
  | c :: cs => if p c then splitRunsSkip p cs else splitRunsGo p cs [c]
end

/-- JS `String.split` on a one-or-more character-class regex such as `/\s+/`
or `/[.!?]+/`: splits at maximal runs of characters satisfying `p`; a leading
run yields an empty first piece and a trailing run an empty last piece, as in
JS. -/
def splitRuns (p : Char → Bool) (s : String) : List String :=
  splitRunsGo p s.data []

/-- JS `script.split(/\n\n/)` (src/index.js:382,470): split at each
non-overlapping occurrence of exactly two consecutive newlines. -/
def splitNNGo : List Char → List Char → List String
  | '\n' :: '\n' :: cs, acc => String.mk acc.reverse :: splitNNGo cs []
  | c :: cs, acc => splitNNGo cs (c :: acc)
  | [], acc => [String.mk acc.reverse]

def splitNN (s : String) : List String := splitNNGo s.data []

mutual
/-- Worker for `splitBlank` (`/\n\n+/`): split at runs of two or more
newlines. -/
def splitBlankGo : List Char → List Char → List String
  | '\n' :: '\n' :: cs, acc => String.mk acc.reverse :: splitBlankSkip cs
  | c :: cs, acc => splitBlankGo cs (c :: acc)
  | [], acc => [String.mk acc.reverse]

def splitBlankSkip : List Char → List String
  | [] => [""]
  | c :: cs => if c = '\n' then splitBlankSkip cs else splitBlankGo cs [c]
end

/-- JS `script.split(/\n\n+/)` (src/index.js:291). -/
def splitBlank (s : String) : List String := splitBlankGo s.data []

/-- Head of the accumulated (reversed) piece is a sentence terminator. -/
def headIsPunct : List Char → Bool
  | c :: _ => sentencePunctChar c
  | [] => false

mutual
/-- Worker for `splitSentencesKeep`. -/
def sentKeepGo : List Char → List Char → List String
  | [], acc => [String.mk acc.reverse]
  | c :: cs, acc =>
    if jsWs c && headIsPunct acc then String.mk acc.reverse :: sentKeepSkip cs
    else sentKeepGo cs (c :: acc)

/-- Worker for `splitSentencesKeep`: consuming the whitespace separator run. -/
def sentKeepSkip : List Char → List String
  | [] => [""]
  | c :: cs => if jsWs c then sentKeepSkip cs else sentKeepGo cs [c]
end

/-- JS `script.split(/(?<=[.!?])\s+/)` (src/index.js:462,472,577): split at
maximal whitespace runs whose first character is preceded by `.`, `!` or `?`,
keeping the punctuation on the preceding piece. -/
def splitSentencesKeep (s : String) : List String := sentKeepGo s.data []

/-- JS `s.trim()`: strip whitespace from both ends (ASCII fragment). -/
def jsTrim (s : String) : String :=
  String.mk (((s.data.dropWhile jsWs).reverse.dropWhile jsWs).reverse)

/-- Characters of `s` after JS `toLowerCase()` (ASCII). -/
def toLowerList (s : String) : List Char := s.data.map Char.toLower

/-- Worker for `countOccCI`: counts leftmost non-overlapping occurrences of
the (nonempty, lowercased) `needle`.  The extra `fuel` argument (initialised
to the haystack length, an upper bound on the number of scan steps) makes the
recursion structural; it never runs out. -/
def countOccAux (needle : List Char) : Nat → List Char → Nat
  | 0, _ => 0
  | _, [] => 0
  | fuel + 1, c :: cs =>
    if needle.isPrefixOf (c :: cs) then
      1 + countOccAux needle fuel (cs.drop (needle.length - 1))
    else countOccAux needle fuel cs

/-- Number of matches of `script.match(new RegExp(needle, 'gi'))` for a
pattern `needle` free of regex metacharacters (equivalently, for the escaped
pattern built at src/index.js:298): leftmost non-overlapping case-insensitive
literal occurrences.  The empty pattern matches at every position, as the
empty JS regex does. -/
def countOccCI (needle hay : String) : Nat :=
  let n := toLowerList needle
  let h := toLowerList hay
  if n.isEmpty then h.length + 1 else countOccAux n h.length h

/-- Substring test on character lists (JS `String.prototype.includes`). -/
def isSubstr (n : List Char) : List Char → Bool
  | [] => n.isEmpty
  | c :: cs => n.isPrefixOf (c :: cs) || isSubstr n cs

/-- JS `hay.toLowerCase().includes(needle.toLowerCase())`, and also
`/needle/i.test(hay)` for a literal word `needle`. -/
def containsCI (needle hay : String) : Bool :=
  isSubstr (toLowerList needle) (toLowerList hay)

/-- JS `s.includes(c)` for a single character (also `/c/.test(s)`). -/
def includesChar (s : String) (c : Char) : Bool := s.data.contains c

/-- JS `/subscribe|like|comment/i.test(s)` (src/index.js:406,491). -/
def hasCtaWord (s : String) : Bool :=
  containsCI "subscribe" s || containsCI "like" s || containsCI "comment" s

/-- JS `/subscribe|like|comment|share/i.test(s)` (src/index.js:312). -/
def hasCtaShareWord (s : String) : Bool :=
  containsCI "subscribe" s || containsCI "like" s || containsCI "comment" s ||
    containsCI "share" s

/-- JS `/step|first|next|then|finally/i.test(s)` (src/index.js:444). -/
def hasTutorialMarkers (s : String) : Bool :=
  containsCI "step" s || containsCI "first" s || containsCI "next" s ||
    containsCI "then" s || containsCI "finally" s

/-- Exact model of the JS double values produced by the engine: an exact
(unnormalised) rational `num n d` with `0 < d` by construction, or one of the
special values `NaN`, `Infinity`, `-Infinity`. -/
inductive JsNum where
  | num (n : Int) (d : Nat)
  | nan
  | inf
  | negInf
deriving DecidableEq, Repr, Inhabited

def jsOfNat (k : Nat) : JsNum := .num k 1

/-- JS subtraction. -/
def jsSub : JsNum → JsNum → JsNum
  | .nan, _ => .nan
  | _, .nan => .nan
  | .num a b, .num c d => .num (a * d - c * b) (b * d)
  | .inf, .inf => .nan
  | .inf, _ => .inf
  | .negInf, .negInf => .nan
  | .negInf, _ => .negInf
  | .num _ _, .inf => .negInf
  | .num _ _, .negInf => .inf

/-- JS multiplication. -/
def jsMul : JsNum → JsNum → JsNum
  | .nan, _ => .nan
  | _, .nan => .nan
  | .num a b, .num c d => .num (a * c) (b * d)
  | .inf, .num c _ => if c = 0 then .nan else if 0 < c then .inf else .negInf
  | .num a _, .inf => if a = 0 then .nan else if 0 < a then .inf else .negInf
  | .negInf, .num c _ => if c = 0 then .nan else if 0 < c then .negInf else .inf
  | .num a _, .negInf => if a = 0 then .nan else if 0 < a then .negInf else .inf
  | .inf, .inf => .inf
  | .inf, .negInf => .negInf
  | .negInf, .inf => .negInf
  | .negInf, .negInf => .inf

/-- JS division (division by the zero value yields `±Infinity` or `NaN`,
never an error, as in JS). -/
def jsDiv : JsNum → JsNum → JsNum
  | .nan, _ => .nan
  | _, .nan => .nan
  | .num a b, .num c d =>
    if c = 0 then (if a = 0 then .nan else if 0 < a then .inf else .negInf)
    else .num (a * d * (if c < 0 then -1 else 1)) (b * c.natAbs)
  | .num _ _, .inf => .num 0 1
  | .num _ _, .negInf => .num 0 1
  | .inf, .num _ d => if d = 0 then .nan else .inf
  | .negInf, .num _ d => if d = 0 then .nan else .negInf
  | .inf, .inf => .nan
  | .inf, .negInf => .nan
  | .negInf, .inf => .nan
  | .negInf, .negInf => .nan

/-- JS `Math.round`: round half toward positive infinity. -/
def jsRound : JsNum → JsNum
  | .num a b => .num (Int.fdiv (2 * a + b) (2 * b)) 1
  | x => x

/-- JS `x >= k` for an integer constant `k` (`NaN` compares false). -/
def jsGeInt (x : JsNum) (k : Int) : Bool :=
  match x with
  | .num a b => k * b ≤ a
  | .inf => true
  | _ => false

/-- JS `x > k` for an integer constant `k` (`NaN` compares false). -/
def jsGtInt (x : JsNum) (k : Int) : Bool :=
  match x with
  | .num a b => k * b < a
  | .inf => true
  | _ => false

/-- JS `x < k` for an integer constant `k` (`NaN` compares false). -/
def jsLtInt (x : JsNum) (k : Int) : Bool :=
  match x with
  | .num a b => a < k * b
  | .negInf => true
  | _ => false

/-- Two-decimal rendering of a nonnegative integer number of hundredths. -/
def fixed2OfNat (k : Nat) : String :=
  toString (k / 100) ++ "." ++
    (if k % 100 < 10 then "0" ++ toString (k % 100) else toString (k % 100))

def fixed2OfInt (n : Int) : String :=
  if n < 0 then "-" ++ fixed2OfNat n.natAbs else fixed2OfNat n.toNat

/-- JS `x.toFixed(2)`: nearest multiple of 1/100, ties to the larger value;
`NaN` and the infinities render as their names. -/
def jsToFixed2 : JsNum → String
  | .num a b => fixed2OfInt (Int.fdiv (200 * a + b) (2 * b))
  | .nan => "NaN"
  | .inf => "Infinity"
  | .negInf => "-Infinity"

def digitsToNat (l : List Char) : Nat :=
  l.foldl (fun n c => n * 10 + (c.toNat - 48)) 0

/-- Parse a nonnegative decimal literal, as numerator/denominator. -/
def parseDec (l : List Char) : Option (Nat × Nat) :=
  let ip := l.takeWhile Char.isDigit
  let rest := l.dropWhile Char.isDigit
  if ip.isEmpty then none
  else
    match rest with
    | [] => some (digitsToNat ip, 1)
    | '.' :: fp =>
      if !fp.isEmpty && fp.all Char.isDigit then
        some (digitsToNat ip * 10 ^ fp.length + digitsToNat fp, 10 ^ fp.length)
      else none
    | _ => none

/-- JS string-to-number coercion (`ToNumber`, also `parseFloat`) restricted to
the strings the engine produces with `jsToFixed2`, on which the two coincide:
plain decimal literals with optional sign, `NaN` and the infinities. -/
def jsToNumber (s : String) : JsNum :=
  if s = "NaN" then .nan
  else if s = "Infinity" then .inf
  else if s = "-Infinity" then .negInf
  else
    match s.data with
    | '-' :: rest =>
      match parseDec rest with
      | some (n, d) => .num (-(n : Int)) d
      | none => .nan
    | l =>
      match parseDec l with
      | some (n, d) => .num n d
      | none => .nan

/-! ## Metrics (`analyzeScript`, `calculateReadability`, `countSyllables`) -/

/-- `countSyllables` (src/index.js:355-372): lowercase, strip non-letters;
words of length ≤ 3 count 1; otherwise count vowel-group starts over
`aeiouy`, subtract 1 for a trailing `e`, floor at 1. -/
def countSyllables (word : String) : Nat :=
  let w := (word.data.map Char.toLower).filter (fun c => 'a' ≤ c && c ≤ 'z')
  if w.length ≤ 3 then 1
  else
    let vowels : List Char := ['a', 'e', 'i', 'o', 'u', 'y']
    let st := w.foldl (fun (st : Nat × Bool) c =>
      let isV := vowels.contains c
      (if isV && !st.2 then st.1 + 1 else st.1, isV)) (0, false)
    let cnt := if w.getLast? = some 'e' then st.1 - 1 else st.1
    max 1 cnt

structure EngagementElements where
  hasQuestion : Bool
  hasCallToAction : Bool
  hasHook : Bool
  questionCount : Nat
deriving DecidableEq, Repr, Inhabited

structure Readability where
  score : JsNum
  level : String
deriving DecidableEq, Repr, Inhabited

/-- The raw (un-rounded) simplified Flesch-Kincaid score of
`calculateReadability` (src/index.js:343):
`206.835 - 1.015*avgWordsPerSentence - 84.6*avgSyllables`. -/
def readabilityRawScore (script : String) : JsNum :=
  let words := (splitRuns jsWs script).filter (fun w => w.length > 0)
  let sentences := (splitRuns sentencePunctChar script).filter
    (fun s => (jsTrim s).length > 0)
  let avgWordsPerSentence := jsDiv (jsOfNat words.length) (jsOfNat sentences.length)
  let totalSyllables := words.foldl (fun n w => n + countSyllables w) 0
  let avgSyllables := jsDiv (jsOfNat totalSyllables) (jsOfNat words.length)
  jsSub (jsSub (JsNum.num 206835 1000) (jsMul (JsNum.num 1015 1000) avgWordsPerSentence))
    (jsMul (JsNum.num 846 10) avgSyllables)

/-- `calculateReadability` (src/index.js:335-353).  Note that the level is
selected from the RAW score; only the returned `score` field is rounded. -/
def calculateReadability (script : String) : Readability :=
  let score := readabilityRawScore script
  { score := jsRound score
    level :=
      if jsGeInt score 80 then "very easy"
      else if jsGeInt score 60 then "easy"
      else if jsGeInt score 40 then "moderate"
      else if jsGeInt score 20 then "difficult"
      else "very difficult" }

structure ScriptAnalysis where
  wordCount : Nat
  sentenceCount : Nat
  paragraphCount : Nat
  averageSentenceLength : JsNum
  estimatedDuration : String
  keywordsFound : Nat
  keywordOccurrences : List (String × Nat)
  totalKeywordMentions : Nat
  keywordDensity : String
  engagementElements : EngagementElements
  readabilityScore : Readability
deriving DecidableEq, Repr, Inhabited

/-- The `keywordOccurrences` object (src/index.js:295-305): keys in first
insertion order, only keywords with a positive match count; a duplicate
keyword re-assigns the same key with the same count, so it is skipped.  The
assignment `keywordOccurrences["__proto__"] = count` invokes the inherited
`__proto__` setter, which ignores a non-object value, so that keyword never
becomes an own key (all other names create or shadow own data properties). -/
def keywordOccurrencesOf (script : String) (keywords : List String) :
    List (String × Nat) :=
  keywords.foldl (fun acc kw =>
    let c := countOccCI kw script
    if 0 < c ∧ kw ≠ "__proto__" ∧ acc.all (fun p => p.1 ≠ kw) then
      acc ++ [(kw, c)]
    else acc) []

/-- `keywordCount` accumulated at src/index.js:303 (adding each list entry's
match count; entries with zero matches add zero). -/
def totalKeywordMentionsOf (script : String) (keywords : List String) : Nat :=
  keywords.foldl (fun n kw => n + countOccCI kw script) 0

/-- `analyzeScript` (src/index.js:288-333). -/
def analyzeScript (script : String) (keywords : List String) : ScriptAnalysis :=
  let words := (splitRuns jsWs script).filter (fun w => w.length > 0)
  let sentences := (splitRuns sentencePunctChar script).filter
    (fun s => (jsTrim s).length > 0)
  let paragraphs := (splitBlank script).filter (fun p => (jsTrim p).length > 0)
  let occ := keywordOccurrencesOf script keywords
  let keywordCount := totalKeywordMentionsOf script keywords
  { wordCount := words.length
    sentenceCount := sentences.length
    paragraphCount := paragraphs.length
    averageSentenceLength := jsRound (jsDiv (jsOfNat words.length) (jsOfNat sentences.length))
    estimatedDuration := toString ((words.length + 149) / 150) ++ " minutes"
    keywordsFound := occ.length
    keywordOccurrences := occ
    totalKeywordMentions := keywordCount
    keywordDensity :=
      jsToFixed2 (jsMul (jsDiv (jsOfNat keywordCount) (jsOfNat words.length)) (jsOfNat 100))
    engagementElements :=
      { hasQuestion := includesChar script '?'
        hasCallToAction := hasCtaShareWord script
        hasHook :=
          match sentences.head? with
          | some s => s.length < 100
          | none => false
        questionCount := script.data.count '?' }
    readabilityScore := calculateReadability script }

/-! ## Errors and the unescaped-regex boundary -/

/-- Failures the engine can raise: the explicit `throw new Error(...)` at
src/index.js:214 (`validation`), the `SyntaxError` thrown by
`new RegExp(kw)` on a syntactically invalid unescaped keyword
(`regexSyntax`), and the model boundary for valid non-literal patterns
(`unmodelled`). -/
inductive JsErr where
  | validation (msg : String)
  | regexSyntax (pattern : String)
  | unmodelled (pattern : String)
  | typeError (msg : String)
deriving DecidableEq, Repr

/-- The property names a plain object literal inherits from
`Object.prototype`.  Looking one of them up on an object literal such as
`{light: 1, ...}` yields the inherited member — a function, or
`Object.prototype` itself for `__proto__` — which is truthy, so an
`obj[key] || dflt` default is NOT applied for these keys. -/
def objectProtoKeys : List String :=
  ["constructor", "hasOwnProperty", "isPrototypeOf", "propertyIsEnumerable",
   "toLocaleString", "toString", "valueOf", "__proto__", "__defineGetter__",
   "__defineSetter__", "__lookupGetter__", "__lookupSetter__"]

/-- Value of a JS lookup `objectLiteral[key] || dflt`: `own v` when `key` is
an own key of the literal or the `||` default applied; `inherited key` when
`key` names an `Object.prototype` member, which leaks through the `||`
untouched. -/
inductive JsLookup (α : Type) where
  | own (v : α)
  | inherited (key : String)
deriving DecidableEq, Repr

/-- JS `x >= k` where `x` is a `JsLookup` value: an inherited
`Object.prototype` member coerces to `NaN` (or a `[object ...]` string), so
the numeric comparison is false. -/
def jsLookupGe (x : JsLookup Nat) (k : Nat) : Bool :=
  match x with
  | .own n => k ≤ n
  | .inherited _ => false

/-- The regex metacharacters escaped at src/index.js:298:
`.*+?^$\x7b\x7d()|[]\`. -/
def isMetaChar (c : Char) : Bool :=
  c = '.' || c = '*' || c = '+' || c = '?' || c = '^' || c = '$' ||
  c = '\x7b' || c = '\x7d' || c = '(' || c = ')' || c = '|' || c = '[' ||
  c = ']' || c = '\\'

def hasRegexMeta (s : String) : Bool := s.data.any isMetaChar

mutual
/-- Fragment of the ECMAScript RegExp syntax check performed by
`new RegExp(pattern)`: detects unbalanced groups, an unmatched `)`,
an unterminated character class and a dangling backslash, all of which throw
a `SyntaxError` in JS.  (A lone `]` is valid in JS and is accepted here.)
`d` is the open-group depth. -/
def regexScanErr : List Char → Nat → Bool
  | [], d => d != 0
  | c :: cs, d =>
    if c = '\\' then
      match cs with
      | [] => true
      | _ :: cs2 => regexScanErr cs2 d
    else if c = '[' then regexClassErr cs d
    else if c = '(' then regexScanErr cs (d + 1)
    else if c = ')' then d == 0 || regexScanErr cs (d - 1)
    else regexScanErr cs d

/-- Scanning inside a character class `[...]`. -/
def regexClassErr : List Char → Nat → Bool
  | [], _ => true
  | c :: cs, d =>
    if c = '\\' then
      match cs with
      | [] => true
      | _ :: cs2 => regexClassErr cs2 d
    else if c = ']' then regexScanErr cs d
    else regexClassErr cs d
end

/-- `new RegExp(pattern)` throws a `SyntaxError`. -/
def regexCompileErr (pattern : String) : Bool := regexScanErr pattern.data 0

/-- The match count of the UNESCAPED `script.match(new RegExp(kw, 'gi'))`
used at src/index.js:418 and 581: an invalid pattern throws at construction;
a valid pattern containing metacharacters uses full regex semantics (outside
this model); a metacharacter-free pattern matches literally. -/
def plannerMatchCount (kw script : String) : Except JsErr Nat :=
  if regexCompileErr kw then .error (.regexSyntax kw)
  else if hasRegexMeta kw then .error (.unmodelled kw)
  else .ok (countOccCI kw script)

/-! ## Optimization Planner (`generateOptimizations`) -/

structure OptimizationChange where
  type : String
  location : String
  suggestion : String
  priority : String
deriving DecidableEq, Repr, Inhabited

structure EngagementPoint where
  type : String
  suggested : Bool
deriving DecidableEq, Repr, Inhabited

structure OptimizationResult where
  changes : List OptimizationChange
  engagementPoints : List EngagementPoint
deriving DecidableEq, Repr, Inhabited

/-- `{light: 1, moderate: 2, aggressive: 3}[level] || 2` (src/index.js:379).
An own key yields its number; an `Object.prototype` key (e.g.
`"constructor"`) yields the truthy inherited member, bypassing the `|| 2`;
any other level is `undefined || 2 = 2`. -/
def intensityOf (level : String) : JsLookup Nat :=
  if level = "light" then .own 1
  else if level = "moderate" then .own 2
  else if level = "aggressive" then .own 3
  else if level ∈ objectProtoKeys then .inherited level
  else .own 2

/-- The reduce at src/index.js:417-420, summing the unescaped regex match
counts of every keyword, with the first `new RegExp` failure propagated. -/
def plannerMentions (keywords : List String) (script : String) : Except JsErr Nat :=
  keywords.foldlM (fun n kw => (plannerMatchCount kw script).map (n + ·)) 0

/-- Pure value of `plannerMentions` on metacharacter-free keyword lists. -/
def plannerMentionsVal (keywords : List String) (script : String) : Nat :=
  keywords.foldl (fun n kw => n + countOccCI kw script) 0

/-- The planner's density (src/index.js:416-421): summed regex mentions
divided by `script.split(/\s+/).length` — the UNFILTERED piece count, which
counts an empty leading/trailing piece — times 100. -/
def plannerDensity (script : String) (keywords : List String) : JsNum :=
  jsMul (jsDiv (jsOfNat (plannerMentionsVal keywords script))
      (jsOfNat (splitRuns jsWs script).length))
    (jsOfNat 100)

/-- `generateOptimizations` (src/index.js:374-454).  The `match` on
`plannerMentions` models the exception thrown inside the density reduce; the
JS exception discards the partially built `changes`, so hoisting it to the
front is observationally identical. -/
def generateOptimizations (script : String) (keywords : List String)
    (contentStyle level : String) : Except JsErr OptimizationResult :=
  match plannerMentions keywords script with
  | .error e => .error e
  | .ok keywordMentions =>
    let intensity := intensityOf level
    let firstParagraph := (splitNN script).headD ""
    let changes1 : List OptimizationChange :=
      match keywords.head? with
      | some pk =>
        if pk ≠ "" ∧ ¬(containsCI pk firstParagraph = true) then
          [{ type := "keyword_insertion", location := "opening",
             suggestion := "Add \"" ++ pk ++ "\" to your opening to improve SEO",
             priority := "high" }]
        else []
      | none => []
    let noQuestion := !(includesChar script '?')
    let changes2 : List OptimizationChange :=
      if noQuestion then
        [{ type := "engagement", location := "throughout",
           suggestion := "Add questions to increase viewer engagement",
           priority := "medium" }]
      else []
    let changes3 : List OptimizationChange :=
      if !(hasCtaWord script) then
        [{ type := "cta", location := "middle and end",
           suggestion := "Add calls to action (subscribe, like, comment)",
           priority := "high" }]
      else []
    let density := jsMul (jsDiv (jsOfNat keywordMentions)
        (jsOfNat (splitRuns jsWs script).length)) (jsOfNat 100)
    let changes4 : List OptimizationChange :=
      if jsLtInt density 1 = true ∧ jsLookupGe intensity 2 = true then
        [{ type := "keyword_density", location := "throughout",
           suggestion := "Keyword density is " ++ jsToFixed2 density ++
             "%. Aim for 1-2%",
           priority := "medium" }]
      else []
    let firstSentence := String.mk (script.data.takeWhile (fun c => !(sentencePunctChar c)))
    let changes5 : List OptimizationChange :=
      if firstSentence ≠ "" ∧ 150 < firstSentence.length then
        [{ type := "hook", location := "opening",
           suggestion := "Shorten your opening hook - aim for under 150 characters",
           priority := "high" }]
      else []
    let changes6 : List OptimizationChange :=
      if contentStyle = "tutorial" ∧ !(hasTutorialMarkers script) then
        [{ type := "structure", location := "throughout",
           suggestion := "Add step markers (First, Next, Then, Finally) for tutorials",
           priority := "medium" }]
      else []
    .ok { changes := changes1 ++ changes2 ++ changes3 ++ changes4 ++ changes5 ++ changes6
          engagementPoints := if noQuestion then [{ type := "question", suggested := true }] else [] }

/-! ## Rewriter (`applyOptimizations`) -/

/-- `this.engagementPhrases.hook` (src/index.js:24-30). -/
def hookPhrases : List String :=
  ["In this video, you\x27ll learn",
   "Have you ever wondered",
   "What if I told you",
   "The biggest mistake people make is",
   "Here\x27s something most people don\x27t know about"]

/-- `this.engagementPhrases.transition` (src/index.js:31-37). -/
def transitionPhrases : List String :=
  ["Now let\x27s talk about",
   "Moving on to",
   "Here\x27s where it gets interesting",
   "The next important point is",
   "Let me show you"]

/-- `this.engagementPhrases.engagement` (src/index.js:38-44). -/
def engagementPhraseList : List String :=
  ["Let me know in the comments",
   "Drop a like if you agree",
   "Subscribe for more",
   "What do you think about",
   "Share this with someone who needs it"]

/-- `this.engagementPhrases.retention` (src/index.js:45-51). -/
def retentionPhrases : List String :=
  ["Stay until the end for",
   "I\x27ll reveal the secret at",
   "Keep watching to discover",
   "The best tip is coming up",
   "Don\x27t miss what\x27s next"]

/-- The fixed closing CTA paragraph appended at src/index.js:492. -/
def ctaParagraph : String :=
  "\n\nIf you found this helpful, don\x27t forget to like this video and subscribe for more content like this!"

/-- Hook prepend (src/index.js:461-467): if the first lookbehind-split
sentence is longer than 150 characters and a primary keyword exists (is a
nonempty string), prepend `"<phrase> <keyword>. "` with the randomly drawn
phrase `hookPhrases[hookIdx]`. -/
def hookStep (hookIdx : Fin 5) (script : String) (primaryKeywords : List String) : String :=
  match primaryKeywords.head? with
  | some pk =>
    if 150 < ((splitSentencesKeep script).headD "").length ∧ pk ≠ "" then
      hookPhrases.getD hookIdx.val "" ++ " " ++ pk ++ ". " ++ script
    else script
  | none => script

/-- JS `s.charAt(0).toLowerCase() + s.slice(1)`. -/
def lowerFirst (s : String) : String :=
  match s.data with
  | [] => ""
  | c :: cs => String.mk (Char.toLower c :: cs)

/-- First-paragraph keyword injection (src/index.js:469-478): if the first
`/\n\n/`-paragraph is nonempty and lacks the (nonempty) primary keyword
case-insensitively and has at least two lookbehind-split sentences, prefix
the second sentence with `"When it comes to <keyword>, "` (lowercasing its
first character), rejoin that paragraph with single spaces and the
paragraphs with `"\n\n"`. -/
def keywordStep (script : String) (primaryKeywords : List String) : String :=
  match primaryKeywords.head? with
  | none => script
  | some pk =>
    match splitNN script with
    | [] => script
    | p0 :: rest =>
      if pk ≠ "" ∧ p0 ≠ "" ∧ ¬(containsCI pk p0 = true) then
        match splitSentencesKeep p0 with
        | a :: b :: tail =>
          String.intercalate "\n\n"
            (String.intercalate " "
              (a :: ("When it comes to " ++ pk ++ ", " ++ lowerFirst b) :: tail) :: rest)
        | _ => script
      else script

/-- The injected question block (src/index.js:485); `primaryKeyword || 'this'`. -/
def questionText (primaryKeywords : List String) : String :=
  "\n\nWhat do you think about " ++
    (match primaryKeywords.head? with
     | some pk => if pk ≠ "" then pk else "this"
     | none => "this") ++
    "? Let me know in the comments.\n\n"

/-- JS `s.indexOf(c, start)` (character index). -/
def idxOfFrom (s : String) (c : Char) (start : Nat) : Option Nat :=
  match (s.data.drop start).findIdx? (· = c) with
  | some j => some (start + j)
  | none => none

/-- Question injection (src/index.js:480-488): if the script still contains
no `?`, insert the question block immediately after the first `.` at or
after `Math.floor(length / 2)`; if there is none, do nothing. -/
def questionStep (script : String) (primaryKeywords : List String) : String :=
  if includesChar script '?' = true then script
  else
    match idxOfFrom script '.' (script.length / 2) with
    | some i =>
      String.mk (script.data.take (i + 1)) ++ questionText primaryKeywords ++
        String.mk (script.data.drop (i + 1))
    | none => script

/-- CTA append (src/index.js:490-493). -/
def ctaStep (script : String) : String :=
  if hasCtaWord script = true then script else script ++ ctaParagraph

/-- `applyOptimizations` (src/index.js:456-496), as the composition of its
four sequential blocks.  The `optimizations` and `contentStyle` parameters
are accepted but never read by the source body. -/
def applyOptimizations (hookIdx : Fin 5) (script : String)
    (optimizations : OptimizationResult) (primaryKeywords : List String)
    (contentStyle : String) : String :=
  ctaStep (questionStep (keywordStep (hookStep hookIdx script primaryKeywords)
    primaryKeywords) primaryKeywords)

/-! ## Report Assembler -/

structure StructureRecommendation where
  /-- JS field `section` (renamed: `section` is a Lean keyword). -/
  sectionLabel : String
  issue : Option String
  suggestion : String
  sections : Option (JsLookup (List String))
deriving DecidableEq, Repr, Inhabited

/-- `structureGuide[contentStyle] || structureGuide.tutorial`
(src/index.js:520-531).  An `Object.prototype` style name yields the truthy
inherited member as the `sections` value, bypassing the tutorial default. -/
def structureGuide (contentStyle : String) : JsLookup (List String) :=
  if contentStyle = "tutorial" then
    .own ["Introduction", "Prerequisites/Setup", "Step-by-step instructions",
      "Tips & Tricks", "Conclusion"]
  else if contentStyle = "review" then
    .own ["Introduction", "Overview/Unboxing", "Features", "Pros & Cons", "Verdict"]
  else if contentStyle = "educational" then
    .own ["Hook", "Context", "Main concepts", "Examples", "Summary"]
  else if contentStyle = "entertainment" then
    .own ["Hook", "Setup", "Main content", "Payoff", "Outro"]
  else if contentStyle = "vlog" then
    .own ["Intro", "Main activities", "Highlights", "Reflection", "Outro"]
  else if contentStyle ∈ objectProtoKeys then .inherited contentStyle
  else
    .own ["Introduction", "Prerequisites/Setup", "Step-by-step instructions",
      "Tips & Tricks", "Conclusion"]

/-- `generateStructureRecommendations` (src/index.js:498-535).  The word
count here is again the unfiltered `split(/\s+/).length`; `targetDuration`
is modelled as an integer number of minutes, for which the comparisons with
`targetDuration * 0.8` and `* 1.2` are exact. -/
def generateStructureRecommendations (script : String) (targetDuration : Int)
    (contentStyle : String) : List StructureRecommendation :=
  let words := (splitRuns jsWs script).length
  let estimatedMinutes : Nat := (words + 149) / 150
  (if (estimatedMinutes : Int) * 10 < targetDuration * 8 then
     [{ sectionLabel := "overall"
        issue := some ("Script is short (" ++ toString estimatedMinutes ++
          " min) for " ++ toString targetDuration ++ " min target")
        suggestion := "Add more detail, examples, or sections to reach target duration"
        sections := none }]
   else if targetDuration * 12 < (estimatedMinutes : Int) * 10 then
     [{ sectionLabel := "overall"
        issue := some ("Script is long (" ++ toString estimatedMinutes ++
          " min) for " ++ toString targetDuration ++ " min target")
        suggestion := "Trim unnecessary content or split into multiple videos"
        sections := none }]
   else []) ++
  [{ sectionLabel := "structure"
     issue := none
     suggestion := "Recommended structure for " ++ contentStyle ++ ":"
     sections := some (structureGuide contentStyle) }]

structure EngagementSuggestion where
  type : String
  timing : String
  suggestion : String
  examples : List String
deriving DecidableEq, Repr, Inhabited

/-- `generateEngagementSuggestions` (src/index.js:537-573); the `script` and
`contentStyle` parameters are never read by the source body, the output is a
fixed list. -/
def generateEngagementSuggestions (script : String) (contentStyle : String) :
    List EngagementSuggestion :=
  [{ type := "retention", timing := "30 seconds in"
     suggestion := "Add a pattern interrupt or tease what\x27s coming (\"Stay until the end for...\")"
     examples := retentionPhrases.take 2 },
   { type := "engagement", timing := "middle of video"
     suggestion := "Ask a question or request interaction"
     examples := engagementPhraseList.take 2 },
   { type := "transitions", timing := "between sections"
     suggestion := "Use clear transition phrases to maintain flow"
     examples := transitionPhrases.take 2 },
   { type := "hook", timing := "first 15 seconds"
     suggestion := "Start with a strong hook that creates curiosity"
     examples := hookPhrases.take 2 }]

structure KeywordInsertion where
  keyword : String
  currentCount : Nat
  recommendedCount : String
  locations : List String
deriving DecidableEq, Repr, Inhabited

/-- `suggestKeywordInsertions` (src/index.js:575-614); uses the unescaped
`new RegExp(keyword, 'gi')`, hence the `Except`. -/
def suggestKeywordInsertions (script : String)
    (primaryKeywords secondaryKeywords : List String) :
    Except JsErr (List KeywordInsertion) :=
  match primaryKeywords.foldlM (fun acc kw =>
      (plannerMatchCount kw script).map (fun c =>
        if c < 3 then
          acc ++ [{ keyword := kw, currentCount := c, recommendedCount := "3-5",
                    locations := ["Opening sentence", "Middle of content", "Conclusion"] }]
        else acc)) [] with
  | .error e => .error e
  | .ok prim =>
    match (secondaryKeywords.take 3).foldlM (fun acc kw =>
        (plannerMatchCount kw script).map (fun c =>
          if c < 1 then
            acc ++ [{ keyword := kw, currentCount := c, recommendedCount := "1-2",
                      locations := ["Body content"] }]
          else acc)) [] with
    | .error e => .error e
    | .ok sec => .ok (prim ++ sec)

/-- `commonTips` (src/index.js:617-623). -/
def commonTips : List String :=
  ["Speak naturally - keyword stuffing sounds robotic",
   "Use keywords in questions to sound more natural",
   "Mention your primary keyword in the first 30 seconds for YouTube SEO",
   "Repeat key points for retention",
   "Use \"you\" language to connect with viewers"]

/-- `styleTips[contentStyle] || []` (src/index.js:625-643).  An
`Object.prototype` style name yields the truthy inherited member, bypassing
the `|| []`. -/
def styleTips (contentStyle : String) : JsLookup (List String) :=
  if contentStyle = "tutorial" then
    .own ["Number your steps clearly", "Pause after important points",
      "Acknowledge common mistakes"]
  else if contentStyle = "review" then
    .own ["Be honest about drawbacks", "Compare to alternatives",
      "Give a clear recommendation"]
  else if contentStyle = "educational" then
    .own ["Start with why it matters", "Use analogies and examples",
      "Summarize key takeaways"]
  else if contentStyle ∈ objectProtoKeys then .inherited contentStyle
  else .own []

/-- `getScriptTips` (src/index.js:616-644):
`[...commonTips, ...(styleTips[contentStyle] || [])]`.  When the lookup
leaks an inherited `Object.prototype` member (a function, or
`Object.prototype` for `__proto__`), the spread of that non-iterable value
throws a `TypeError`. -/
def getScriptTips (contentStyle : String) : Except JsErr (List String) :=
  match styleTips contentStyle with
  | .own l => .ok (commonTips ++ l)
  | .inherited key => .error (.typeError ("Spread of non-iterable inherited member " ++ key))

structure Warning where
  type : String
  message : String
deriving DecidableEq, Repr, Inhabited

/-- `generateWarnings` (src/index.js:646-671); `parseFloat` of the density
string is `jsToNumber`. -/
def generateWarnings (analysis : ScriptAnalysis) : List Warning :=
  (if jsGtInt (jsToNumber analysis.keywordDensity) 3 then
     [{ type := "keyword_stuffing"
        message := "Keyword density (" ++ analysis.keywordDensity ++
          "%) is too high - may sound unnatural" }]
   else []) ++
  (if jsGtInt analysis.averageSentenceLength 25 then
     [{ type := "readability"
        message := "Average sentence length is high - consider breaking up long sentences" }]
   else []) ++
  (if analysis.engagementElements.hasCallToAction = false then
     [{ type := "missing_cta"
        message := "No clear call to action found - add subscribe/like reminders" }]
   else [])

/-! ## The `optimize` entry point -/

/-- `keywords.recommended` of the request; each `{keyword: string}` wrapper
object is modelled by its string. -/
structure RecommendedLists where
  primary : Option (List String)
  secondary : Option (List String)
  longTail : Option (List String)
deriving DecidableEq, Repr, Inhabited

structure KeywordsData where
  recommended : Option RecommendedLists
deriving DecidableEq, Repr, Inhabited

/-- An `optimizeScript` request (src/index.js:205-212).  A missing `script`
or `concept` is modelled as `""` (both are falsy in the JS guard); the JS
default parameters mean `targetDuration`, `contentStyle` and
`optimizationLevel` always carry a value here. -/
structure Request where
  script : String
  concept : String
  keywords : Option KeywordsData
  targetDuration : Int
  contentStyle : String
  optimizationLevel : String
deriving DecidableEq, Repr, Inhabited

/-- `keywords?.recommended?.primary?.map(k => k.keyword) || [concept]`
(src/index.js:220).  Note an empty array is truthy in JS, so a present empty
list is NOT replaced by `[concept]`. -/
def requestPrimaryKeywords (req : Request) : List String :=
  ((req.keywords.bind KeywordsData.recommended).bind RecommendedLists.primary).getD
    [req.concept]

/-- src/index.js:221. -/
def requestSecondaryKeywords (req : Request) : List String :=
  ((req.keywords.bind KeywordsData.recommended).bind RecommendedLists.secondary).getD []

/-- src/index.js:222. -/
def requestLongTailKeywords (req : Request) : List String :=
  ((req.keywords.bind KeywordsData.recommended).bind RecommendedLists.longTail).getD []

/-- `allKeywords` (src/index.js:223). -/
def requestAllKeywords (req : Request) : List String :=
  requestPrimaryKeywords req ++ requestSecondaryKeywords req ++ requestLongTailKeywords req

structure ScriptAndAnalysis where
  script : String
  analysis : ScriptAnalysis
deriving DecidableEq, Repr, Inhabited

structure Improvements where
  keywordDensityChange : String
  keywordsAdded : Int
  engagementPointsAdded : Nat
deriving DecidableEq, Repr, Inhabited

/-- The object returned by `optimizeScript` (src/index.js:260-285). -/
structure Report where
  concept : String
  contentStyle : String
  targetDuration : Int
  optimizationLevel : String
  generatedAt : String
  original : ScriptAndAnalysis
  optimized : ScriptAndAnalysis
  improvements : Improvements
  optimizations : List OptimizationChange
  structureRecommendations : List StructureRecommendation
  engagementSuggestions : List EngagementSuggestion
  keywordInsertions : List KeywordInsertion
  tips : List String
  warnings : List Warning
deriving DecidableEq, Repr, Inhabited

/-- `optimizeScript` (src/index.js:205-286).  `hookIdx` is the random hook
index drawn at line 465 and `now` the timestamp taken at line 265; both are
the engine's only impure inputs.  Exceptions propagate in source order:
`generateOptimizations` (line 229) runs before `suggestKeywordInsertions`
(line 282), which runs before the tips spread in `getScriptTips` (line 283);
a thrown exception discards all intermediate pure values. -/
def optimizeScript (req : Request) (hookIdx : Fin 5) (now : String) :
    Except JsErr Report :=
  if req.script = "" ∨ req.concept = "" then
    .error (.validation "Script and concept are required")
  else
    match generateOptimizations req.script (requestAllKeywords req) req.contentStyle
        req.optimizationLevel with
    | .error e => .error e
    | .ok optimizations =>
      match suggestKeywordInsertions req.script (requestPrimaryKeywords req)
          (requestSecondaryKeywords req) with
      | .error e => .error e
      | .ok keywordInsertions =>
        match getScriptTips req.contentStyle with
        | .error e => .error e
        | .ok tipsList =>
        .ok
          { concept := req.concept
            contentStyle := req.contentStyle
            targetDuration := req.targetDuration
            optimizationLevel := req.optimizationLevel
            generatedAt := now
            original := { script := req.script
                          analysis := analyzeScript req.script (requestAllKeywords req) }
            optimized := { script := applyOptimizations hookIdx req.script optimizations
                             (requestPrimaryKeywords req) req.contentStyle
                           analysis := analyzeScript (applyOptimizations hookIdx req.script
                             optimizations (requestPrimaryKeywords req) req.contentStyle)
                             (requestAllKeywords req) }
            improvements :=
              { keywordDensityChange :=
                  jsToFixed2 (jsSub
                    (jsToNumber (analyzeScript (applyOptimizations hookIdx req.script
                      optimizations (requestPrimaryKeywords req) req.contentStyle)
                      (requestAllKeywords req)).keywordDensity)
                    (jsToNumber (analyzeScript req.script
                      (requestAllKeywords req)).keywordDensity))
                keywordsAdded :=
                  ((analyzeScript (applyOptimizations hookIdx req.script optimizations
                    (requestPrimaryKeywords req) req.contentStyle)
                    (requestAllKeywords req)).keywordsFound : Int) -
                  ((analyzeScript req.script (requestAllKeywords req)).keywordsFound : Int)
                engagementPointsAdded := optimizations.engagementPoints.length }
            optimizations := optimizations.changes
            structureRecommendations := generateStructureRecommendations req.script
              req.targetDuration req.contentStyle
            engagementSuggestions := generateEngagementSuggestions req.script
              req.contentStyle
            keywordInsertions := keywordInsertions
            tips := tipsList
            warnings := generateWarnings (analyzeScript (applyOptimizations hookIdx
              req.script optimizations (requestPrimaryKeywords req) req.contentStyle)
              (requestAllKeywords req)) }

/-- The hook-prepend trigger condition of `hookStep` (src/index.js:464), as a
Boolean on the request data. -/
def hookTriggers (script : String) (primaryKeywords : List String) : Bool :=
  match primaryKeywords.head? with
  | some pk =>
    decide (150 < ((splitSentencesKeep script).headD "").length) && decide (pk ≠ "")
  | none => false

/-- A report with its `generatedAt` timestamp blanked. -/
def stripTime (r : Report) : Report := { r with generatedAt := "" }

/-- The `generatedAt` field of a successful result. -/
def genAtOf (e : Except JsErr Report) : Option String :=
  e.toOption.map Report.generatedAt

/-- A request whose concept `"("` is an invalid regex pattern once it reaches
the unescaped `new RegExp` of the planner. -/
def reqParen : Request :=
  { script := "hello world", concept := "(", keywords := none,
    targetDuration := 10, contentStyle := "tutorial", optimizationLevel := "moderate" }

/-- A small ordinary request used to compare two invocation timestamps. -/
def reqC4 : Request :=
  { script := "Cats are great. They purr a lot.", concept := "cats",
    keywords := none, targetDuration := 10, contentStyle := "vlog",
    optimizationLevel := "moderate" }

/-- The end-to-end scenario request of the spec. -/
def reqE2E : Request :=
  { script := "This is a basic video. It has no questions or calls to action.",
    concept := "gardening tips", keywords := none, targetDuration := 10,
    contentStyle := "tutorial", optimizationLevel := "moderate" }

/-- The report produced for `reqE2E`. -/
def reportE2E : Report :=
  match optimizeScript reqE2E 0 "2024-01-01T00:00:00.000Z" with
  | .ok r => r
  | .error _ => default

/-- Whitespace-only script with a whitespace concept: the concept, used as
the keyword, matches inside the whitespace-only script. -/
def reqWsWs : Request :=
  { script := " ", concept := " ", keywords := none, targetDuration := 10,
    contentStyle := "tutorial", optimizationLevel := "moderate" }

/-- Whitespace-only script with an ordinary concept. -/
def reqWsOk : Request :=
  { script := " ", concept := "gardening", keywords := none, targetDuration := 10,
    contentStyle := "tutorial", optimizationLevel := "moderate" }

/-- A script with a leading space, 100 real words and exactly one occurrence
of the keyword "x": its Metrics word count (empty tokens discarded) is 100,
so the claimed density is exactly 1.00%, while the planner divides by the
unfiltered `split(/\s+/).length` of 101, giving 100/101 % which is below the
1% threshold. -/
def scriptC6 : String := " x " ++ String.intercalate " " (List.replicate 99 "w")

/-- 42 one-syllable words in a single sentence: raw readability score
`206.835 - 1.015*42 - 84.6 = 79.605`, which rounds to 80 but classifies as
"easy". -/
def script42 : String := String.intercalate " " (List.replicate 42 "cat") ++ "."

/-!
## Theorems

Helper lemmas first, then one theorem per claim (with its witness or
counterexample where required).
-/

theorem strData_append (a b : String) : (a ++ b).data = a.data ++ b.data := rfl

theorem toLowerList_append (a b : String) :
    toLowerList (a ++ b) = toLowerList a ++ toLowerList b := by
  simp [toLowerList, strData_append]

theorem isSubstr_append_right (n b : List Char) (a : List Char)
    (h : isSubstr n b = true) : isSubstr n (a ++ b) = true := by
  induction a with
  | nil => simpa using h
  | cons c a ih => simp [isSubstr, ih]

theorem containsCI_append_right (n a b : String) (h : containsCI n b = true) :
    containsCI n (a ++ b) = true := by
  unfold containsCI at h ⊢
  rw [toLowerList_append]
  exact isSubstr_append_right _ _ _ h

theorem includesChar_append (a b : String) (c : Char) :
    includesChar (a ++ b) c = (includesChar a c || includesChar b c) := by
  simp [includesChar, strData_append]

theorem hasCtaWord_ctaStep (s : String) : hasCtaWord (ctaStep s) = true := by
  unfold ctaStep
  split
  · assumption
  · have h : containsCI "like" (s ++ ctaParagraph) = true :=
      containsCI_append_right _ _ _ (by decide)
    simp [hasCtaWord, h]

theorem applyOptimizations_hasCta (hookIdx : Fin 5) (script : String)
    (optim : OptimizationResult) (pks : List String) (style : String) :
    hasCtaWord (applyOptimizations hookIdx script optim pks style) = true :=
  hasCtaWord_ctaStep _

theorem hasCtaWord_imp_share (s : String) (h : hasCtaWord s = true) :
    hasCtaShareWord s = true := by
  unfold hasCtaWord at h
  unfold hasCtaShareWord
  rcases Bool.or_eq_true_iff.mp h with h1 | h2
  · rw [h1]; simp
  · rw [h2]; simp

/-- C1: on a request with a non-empty script and the non-empty concept `"("`,
`optimize` does not return a Report and does not fail with the
ValidationError: the unescaped `new RegExp("(", 'gi')` built by the planner
(src/index.js:418) throws a `SyntaxError` (unterminated group), contradicting
the claim that such requests always yield a Report with no error. -/
theorem claim_C1 :
    optimizeScript reqParen 0 "2024-01-01T00:00:00.000Z" =
      .error (.regexSyntax "(") := by rfl

/-- C5: the syllable heuristic gives "cat" → 1 and "banana" → 3 as claimed,
but "simple" → 1, not 2: the cleaned word has vowel groups "i" and "e"
(count 2, not 3), the trailing "e" subtracts 1, and the floor at 1 leaves 1. -/
theorem claim_C5 :
    countSyllables "cat" = 1 ∧ countSyllables "banana" = 3 ∧
      countSyllables "simple" = 1 := by decide

/-- C5 counterexample: `countSyllables "simple"` is 1, so the claimed value 2
is false. -/
theorem claim_C5_counterexample :
    countSyllables "simple" = 1 ∧ ¬(countSyllables "simple" = 2) := by decide

/-- C7: for keywords `["x"]` and script `"x x x x"` the metrics count 4 words
and 4 keyword mentions, and `keywordDensity` is the string "100.00". -/
theorem claim_C7 :
    (analyzeScript "x x x x" ["x"]).wordCount = 4 ∧
    (analyzeScript "x x x x" ["x"]).totalKeywordMentions = 4 ∧
    (analyzeScript "x x x x" ["x"]).keywordDensity = "100.00" := by decide

/-- C8 counterexample: 42 one-syllable words in one sentence produce raw
score 79.605, whose ROUNDED value 80 is reported, yet the level — chosen from
the raw score at src/index.js:346 — is "easy", not "very easy".  So the level
is not "very easy" exactly when the rounded score is at least 80. -/
theorem claim_C8_counterexample :
    (calculateReadability script42).score = JsNum.num 80 1 ∧
      (calculateReadability script42).level = "easy" := by decide

/-- C8 (amended): the readability level is "very easy" exactly when the RAW
(un-rounded) score is at least 80, and "easy" exactly when the raw score is
at least 60 but not at least 80; the boundary is inclusive (`score >= 80`).
The reported `score` field is the rounded value, which can read 80 while the
level is "easy". -/
theorem claim_C8 (script : String) :
    ((calculateReadability script).level = "very easy" ↔
      jsGeInt (readabilityRawScore script) 80 = true) ∧
    ((calculateReadability script).level = "easy" ↔
      (jsGeInt (readabilityRawScore script) 60 = true ∧
        jsGeInt (readabilityRawScore script) 80 = false)) := by
  unfold calculateReadability
  by_cases h80 : jsGeInt (readabilityRawScore script) 80 = true
  · simp [h80]
  · have h80f : jsGeInt (readabilityRawScore script) 80 = false :=
      Bool.eq_false_iff.mpr h80
    by_cases h60 : jsGeInt (readabilityRawScore script) 60 = true
    · simp [h80f, h60]
    · have h60f : jsGeInt (readabilityRawScore script) 60 = false :=
        Bool.eq_false_iff.mpr h60
      by_cases h40 : jsGeInt (readabilityRawScore script) 40 = true
      · simp [h80f, h60f, h40]
      · have h40f : jsGeInt (readabilityRawScore script) 40 = false :=
          Bool.eq_false_iff.mpr h40
        by_cases h20 : jsGeInt (readabilityRawScore script) 20 = true
        · simp [h80f, h60f, h40f, h20]
        · have h20f : jsGeInt (readabilityRawScore script) 20 = false :=
            Bool.eq_false_iff.mpr h20
          simp [h80f, h60f, h40f, h20f]

theorem includesChar_ctaStep (s : String) (c : Char)
    (h : includesChar s c = true) : includesChar (ctaStep s) c = true := by
  unfold ctaStep
  split
  · exact h
  · rw [includesChar_append, h]; rfl

theorem includesChar_questionText (pks : List String) :
    includesChar (questionText pks) '?' = true := by
  unfold questionText
  rw [includesChar_append]
  have h : includesChar "? Let me know in the comments.\n\n" '?' = true := by decide
  simp [h]

/-- C2 counterexample: the script has no `?` and does contain a
sentence-terminating `.` (at offset 2), but its only `.` lies before the
textual midpoint, so `indexOf('.', midPoint)` finds nothing, question
injection is skipped, and the optimized script still has no `?`. -/
theorem claim_C2_counterexample :
    includesChar "Hi. this is a long tail without punctuation at all here" '?' = false ∧
    includesChar "Hi. this is a long tail without punctuation at all here" '.' = true ∧
    includesChar (applyOptimizations 0
      "Hi. this is a long tail without punctuation at all here"
      { changes := [], engagementPoints := [] } ["Hi"] "tutorial") '?' = false := by
  decide

/-- C2 (amended): for every input script containing no `?`, the optimized
script contains at least one `?` if the script as it stands after the hook
and keyword-injection steps has a `.` at or after its textual midpoint
(character offset `floor(length/2)`); otherwise — in particular when the only
`.` lies before the midpoint, not just when no `.` exists — question
injection is a no-op. -/
theorem claim_C2 (hookIdx : Fin 5) (script : String) (optim : OptimizationResult)
    (pks : List String) (style : String)
    (hq : includesChar script '?' = false) :
    ((idxOfFrom (keywordStep (hookStep hookIdx script pks) pks) '.'
        ((keywordStep (hookStep hookIdx script pks) pks).length / 2)).isSome = true →
      includesChar (applyOptimizations hookIdx script optim pks style) '?' = true) ∧
    ((idxOfFrom (keywordStep (hookStep hookIdx script pks) pks) '.'
        ((keywordStep (hookStep hookIdx script pks) pks).length / 2)).isSome = false →
      questionStep (keywordStep (hookStep hookIdx script pks) pks) pks =
        keywordStep (hookStep hookIdx script pks) pks) := by
  constructor
  · intro hsome
    show includesChar (ctaStep (questionStep (keywordStep (hookStep hookIdx script pks) pks) pks)) '?' = true
    by_cases h2 : includesChar (keywordStep (hookStep hookIdx script pks) pks) '?' = true
    · have hqs : questionStep (keywordStep (hookStep hookIdx script pks) pks) pks =
          keywordStep (hookStep hookIdx script pks) pks := by
        unfold questionStep
        rw [if_pos h2]
      rw [hqs]
      exact includesChar_ctaStep _ _ h2
    · have h2f : includesChar (keywordStep (hookStep hookIdx script pks) pks) '?' = false :=
        Bool.eq_false_iff.mpr h2
      obtain ⟨i, hi⟩ := Option.isSome_iff_exists.mp hsome
      have hqs : questionStep (keywordStep (hookStep hookIdx script pks) pks) pks =
          String.mk ((keywordStep (hookStep hookIdx script pks) pks).data.take (i + 1)) ++
            questionText pks ++
            String.mk ((keywordStep (hookStep hookIdx script pks) pks).data.drop (i + 1)) := by
        unfold questionStep
        rw [if_neg (by simp [h2f]), hi]
      rw [hqs]
      apply includesChar_ctaStep
      rw [includesChar_append, includesChar_append, includesChar_questionText]
      simp
  · intro hnone
    have hnone' : idxOfFrom (keywordStep (hookStep hookIdx script pks) pks) '.'
        ((keywordStep (hookStep hookIdx script pks) pks).length / 2) = none :=
      Option.not_isSome_iff_eq_none.mp (by simp [hnone])
    unfold questionStep
    split
    · rfl
    · rw [hnone']

/-- C2 witness: a script with no `?` whose `.` lies at/after the midpoint
gets the question injected. -/
theorem claim_C2_witness :
    includesChar "zzz one. two three four five." '?' = false ∧
    includesChar (applyOptimizations 0 "zzz one. two three four five."
      { changes := [], engagementPoints := [] } ["zzz"] "tutorial") '?' = true :=
  ⟨by decide,
    (claim_C2 0 "zzz one. two three four five." { changes := [], engagementPoints := [] }
      ["zzz"] "tutorial" (by decide)).1 (by decide)⟩

/-- C3: if the input script contains none of subscribe/like/comment
(case-insensitively), the optimized script contains at least one of them —
either an earlier step already introduced one (the injected question block
ends in "comments") and the CTA check sees it, or the fixed CTA paragraph
(containing "like" and "subscribe") is appended. -/
theorem claim_C3 (hookIdx : Fin 5) (script : String) (optim : OptimizationResult)
    (pks : List String) (style : String)
    (h : hasCtaWord script = false) :
    hasCtaWord (applyOptimizations hookIdx script optim pks style) = true :=
  applyOptimizations_hasCta hookIdx script optim pks style

/-- C3 witness. -/
theorem claim_C3_witness :
    hasCtaWord "hello" = false ∧
    hasCtaWord (applyOptimizations 0 "hello"
      { changes := [], engagementPoints := [] } [] "tutorial") = true :=
  ⟨by decide,
    claim_C3 0 "hello" { changes := [], engagementPoints := [] } [] "tutorial" (by decide)⟩

theorem hookStep_of_not_triggers (i j : Fin 5) (script : String)
    (pks : List String) (h : hookTriggers script pks = false) :
    hookStep i script pks = hookStep j script pks := by
  unfold hookTriggers at h
  unfold hookStep
  cases hh : pks.head? with
  | none => rfl
  | some pk =>
    rw [hh] at h
    dsimp only at h ⊢
    have h' : ¬(150 < ((splitSentencesKeep script).headD "").length ∧ pk ≠ "") := by
      intro hand
      rw [decide_eq_true hand.1, decide_eq_true hand.2] at h
      exact Bool.noConfusion h
    rw [if_neg h', if_neg h']

theorem applyOptimizations_of_not_triggers (i j : Fin 5) (script : String)
    (o : OptimizationResult) (pks : List String) (style : String)
    (h : hookTriggers script pks = false) :
    applyOptimizations i script o pks style = applyOptimizations j script o pks style := by
  unfold applyOptimizations
  rw [hookStep_of_not_triggers i j script pks h]

/-- C4 counterexample: one request, hook step not triggering, same (trivial)
phrase draw, but two different invocation timestamps: the two Reports differ,
because the Report embeds `generatedAt: new Date().toISOString()`
(src/index.js:265) — a timing dependency the claim says does not exist. -/
theorem claim_C4_counterexample :
    optimizeScript reqC4 0 "2024-01-01T00:00:00.000Z" ≠
      optimizeScript reqC4 0 "2024-01-01T00:00:01.000Z" := by
  intro h
  exact absurd (congrArg genAtOf h) (by decide)

/-- C4 (amended): apart from the `generatedAt` timestamp field, the Report
is a deterministic function of the request and the hook-phrase draw: two
invocations on identical inputs in which the hook step either does not
trigger or selects the same phrase produce Reports identical up to
`generatedAt`; no other randomness, I/O, or timing dependency affects the
output. -/
theorem claim_C4 (req : Request) (i₁ i₂ : Fin 5) (t₁ t₂ : String)
    (h : i₁ = i₂ ∨ hookTriggers req.script (requestPrimaryKeywords req) = false) :
    (optimizeScript req i₁ t₁).map stripTime = (optimizeScript req i₂ t₂).map stripTime := by
  have happ : ∀ o : OptimizationResult,
      applyOptimizations i₁ req.script o (requestPrimaryKeywords req) req.contentStyle =
        applyOptimizations i₂ req.script o (requestPrimaryKeywords req) req.contentStyle := by
    rcases h with h | h
    · intro o; rw [h]
    · intro o; exact applyOptimizations_of_not_triggers i₁ i₂ _ o _ _ h
  unfold optimizeScript
  split
  · rfl
  · simp only [happ]
    cases generateOptimizations req.script (requestAllKeywords req) req.contentStyle
        req.optimizationLevel with
    | error e => rfl
    | ok o =>
      cases suggestKeywordInsertions req.script (requestPrimaryKeywords req)
          (requestSecondaryKeywords req) with
      | error e => rfl
      | ok v =>
        cases getScriptTips req.contentStyle with
        | error e => rfl
        | ok tl => simp [stripTime, Except.map]

/-- C4 witness: same hook draw, different timestamps, identical stripped
Reports. -/
theorem claim_C4_witness :
    ((0 : Fin 5) = (0 : Fin 5) ∨
      hookTriggers reqC4.script (requestPrimaryKeywords reqC4) = false) ∧
    (optimizeScript reqC4 0 "2024-01-01T00:00:00.000Z").map stripTime =
      (optimizeScript reqC4 0 "2024-01-01T00:00:01.000Z").map stripTime :=
  ⟨Or.inl rfl, claim_C4 reqC4 0 0 "2024-01-01T00:00:00.000Z" "2024-01-01T00:00:01.000Z"
    (Or.inl rfl)⟩

theorem regexScanErr_of_noMeta :
    ∀ (l : List Char), (∀ c ∈ l, isMetaChar c = false) → ∀ d, regexScanErr l d = (d != 0) := by
  intro l
  induction l with
  | nil => intro _ d; rfl
  | cons c cs ih =>
    intro h d
    have hc := h c (List.mem_cons_self c cs)
    have hb : ¬(c = '\\') := fun e => by subst e; exact absurd hc (by decide)
    have hk : ¬(c = '[') := fun e => by subst e; exact absurd hc (by decide)
    have ho : ¬(c = '(') := fun e => by subst e; exact absurd hc (by decide)
    have hp : ¬(c = ')') := fun e => by subst e; exact absurd hc (by decide)
    unfold regexScanErr
    rw [if_neg hb, if_neg hk, if_neg ho, if_neg hp]
    exact ih (fun x hx => h x (List.mem_cons_of_mem c hx)) d

theorem regexCompileErr_of_noMeta (kw : String) (h : hasRegexMeta kw = false) :
    regexCompileErr kw = false := by
  unfold regexCompileErr
  have h' : ∀ c ∈ kw.data, isMetaChar c = false := by
    intro c hc
    exact Bool.eq_false_iff.mpr fun hmeta =>
      (Bool.eq_false_iff.mp h) (List.any_eq_true.mpr ⟨c, hc, hmeta⟩)
  rw [regexScanErr_of_noMeta kw.data h' 0]
  rfl

theorem plannerMatchCount_ok (kw script : String) (h : hasRegexMeta kw = false) :
    plannerMatchCount kw script = .ok (countOccCI kw script) := by
  unfold plannerMatchCount
  rw [regexCompileErr_of_noMeta kw h, h]
  rfl

theorem plannerMentions_foldlM (script : String) :
    ∀ (ks : List String), (∀ kw ∈ ks, hasRegexMeta kw = false) → ∀ a : Nat,
      ks.foldlM (fun n kw => (plannerMatchCount kw script).map (n + ·)) a =
        .ok (ks.foldl (fun n kw => n + countOccCI kw script) a) := by
  intro ks
  induction ks with
  | nil => intro _ a; rfl
  | cons kw ks ih =>
    intro h a
    rw [List.foldlM_cons, List.foldl_cons,
      plannerMatchCount_ok kw script (h kw (List.mem_cons_self kw ks))]
    exact ih (fun x hx => h x (List.mem_cons_of_mem kw hx)) _

theorem plannerMentions_eq (keywords : List String) (script : String)
    (h : ∀ kw ∈ keywords, hasRegexMeta kw = false) :
    plannerMentions keywords script = .ok (plannerMentionsVal keywords script) :=
  plannerMentions_foldlM script keywords h 0

theorem primInsertions_ok (script : String) :
    ∀ (ks : List String), (∀ kw ∈ ks, hasRegexMeta kw = false) →
      ∀ a : List KeywordInsertion,
      ∃ v, ks.foldlM (fun acc kw =>
        (plannerMatchCount kw script).map (fun c =>
          if c < 3 then
            acc ++ [{ keyword := kw, currentCount := c, recommendedCount := "3-5",
                      locations := ["Opening sentence", "Middle of content", "Conclusion"] }]
          else acc)) a = .ok v := by
  intro ks
  induction ks with
  | nil => intro _ a; exact ⟨a, rfl⟩
  | cons kw ks ih =>
    intro h a
    rw [List.foldlM_cons, plannerMatchCount_ok kw script (h kw (List.mem_cons_self kw ks))]
    exact ih (fun x hx => h x (List.mem_cons_of_mem kw hx)) _

theorem secInsertions_ok (script : String) :
    ∀ (ks : List String), (∀ kw ∈ ks, hasRegexMeta kw = false) →
      ∀ a : List KeywordInsertion,
      ∃ v, ks.foldlM (fun acc kw =>
        (plannerMatchCount kw script).map (fun c =>
          if c < 1 then
            acc ++ [{ keyword := kw, currentCount := c, recommendedCount := "1-2",
                      locations := ["Body content"] }]
          else acc)) a = .ok v := by
  intro ks
  induction ks with
  | nil => intro _ a; exact ⟨a, rfl⟩
  | cons kw ks ih =>
    intro h a
    rw [List.foldlM_cons, plannerMatchCount_ok kw script (h kw (List.mem_cons_self kw ks))]
    exact ih (fun x hx => h x (List.mem_cons_of_mem kw hx)) _

theorem suggestKeywordInsertions_ok (script : String) (prim sec : List String)
    (hp : ∀ kw ∈ prim, hasRegexMeta kw = false)
    (hs : ∀ kw ∈ sec, hasRegexMeta kw = false) :
    ∃ v, suggestKeywordInsertions script prim sec = .ok v := by
  obtain ⟨v1, h1⟩ := primInsertions_ok script prim hp []
  obtain ⟨v2, h2⟩ := secInsertions_ok script (sec.take 3)
    (fun kw hk => hs kw (List.take_subset 3 sec hk)) []
  refine ⟨v1 ++ v2, ?_⟩
  unfold suggestKeywordInsertions
  rw [h1, h2]

theorem any_single_ite {α : Type} (c : Prop) [Decidable c] (x : α) (p : α → Bool) :
    (if c then [x] else []).any p = (decide c && p x) := by
  by_cases h : c
  · simp [h]
  · simp [h]

theorem filter_single_ite_false {α : Type} (c : Prop) [Decidable c] (x : α)
    (p : α → Bool) (hp : p x = false) :
    (if c then [x] else []).filter p = [] := by
  by_cases h : c
  · simp [h, hp]
  · simp [h]

/-- Helper for C6: whenever the intensity comparison is false, no
keyword_density change is emitted. -/
theorem generateOptimizations_no_density (script : String) (keywords : List String)
    (style level : String) (hlit : ∀ kw ∈ keywords, hasRegexMeta kw = false)
    (hint : jsLookupGe (intensityOf level) 2 = false) :
    (generateOptimizations script keywords style level).map (fun res =>
      res.changes.any (fun c => c.type == "keyword_density")) = .ok false := by
  have hm := plannerMentions_eq keywords script hlit
  unfold generateOptimizations
  rw [hm]
  simp only [Except.map, Except.ok.injEq]
  cases hh : keywords.head? with
  | none => simp [List.any_append, any_single_ite, hint]
  | some pk => simp [List.any_append, any_single_ite, hint]

/-- C6 counterexample, refuting both halves of the claimed gate on
`scriptC6` (leading space, 100 words, 1 match of keyword "x").
First conjunct: the density computed by THE CLAIM's formula — all matches
summed, divided by word count, times 100, i.e. 1/100 × 100 = 1.00% — is NOT
below 1%; second conjunct: the code emits the medium-priority
keyword_density suggestion anyway, because it divides by the unfiltered
`split(/\s+/).length` of 101 (density 100/101 % < 1%).  Third conjunct: for
optimizationLevel "constructor" — which per the claim is "any other value
defaulting to 2" — no keyword_density suggestion is ever emitted, because
the object lookup yields the inherited `Object.prototype.constructor`
function and `intensity >= 2` compares `NaN`. -/
theorem claim_C6_counterexample :
    jsLtInt (jsMul (jsDiv (jsOfNat (plannerMentionsVal ["x"] scriptC6))
        (jsOfNat (analyzeScript scriptC6 ["x"]).wordCount)) (jsOfNat 100)) 1 = false ∧
    ((generateOptimizations scriptC6 ["x"] "vlog" "moderate").map (fun res =>
        res.changes.any (fun c => c.type == "keyword_density" && c.priority == "medium")) =
      .ok true) ∧
    ((generateOptimizations scriptC6 ["x"] "vlog" "constructor").map (fun res =>
        res.changes.any (fun c => c.type == "keyword_density")) = .ok false) := by
  refine ⟨by decide, ?_, ?_⟩ <;> rfl

/-- C6 (amended): the Planner emits a medium-priority "keyword_density"
suggestion if and only if the density computed over the full keyword list —
all regex matches summed, divided by the planner's OWN word count
`script.split(/\s+/).length`, which unlike the Metrics word count keeps the
empty pieces produced by leading/trailing whitespace — times 100 is below 1%
and the intensity lookup is at least 2, where light=1, moderate=2,
aggressive=3, other values default to 2 EXCEPT `Object.prototype` property
names such as "constructor", whose inherited value makes the comparison
false; in particular neither "light" nor such prototype keys ever produce
this suggestion, and intensity gates no other Planner check (all other
changes and the engagement points are the same for every level).  Stated for
keyword lists free of regex metacharacters, on which the unescaped
`new RegExp` of the planner matches literally. -/
theorem claim_C6 (script : String) (keywords : List String) (style level : String)
    (hlit : ∀ kw ∈ keywords, hasRegexMeta kw = false) :
    ((generateOptimizations script keywords style level).map (fun res =>
        res.changes.any (fun c => c.type == "keyword_density" && c.priority == "medium")) =
      .ok (jsLtInt (plannerDensity script keywords) 1 &&
        jsLookupGe (intensityOf level) 2)) ∧
    ((level = "light" ∨ level ∈ objectProtoKeys) →
      (generateOptimizations script keywords style level).map (fun res =>
        res.changes.any (fun c => c.type == "keyword_density")) = .ok false) ∧
    (∀ level2 : String,
      (generateOptimizations script keywords style level).map (fun res =>
        (res.changes.filter (fun c => !(c.type == "keyword_density")),
          res.engagementPoints)) =
      (generateOptimizations script keywords style level2).map (fun res =>
        (res.changes.filter (fun c => !(c.type == "keyword_density")),
          res.engagementPoints))) := by
  have hm := plannerMentions_eq keywords script hlit
  refine ⟨?_, ?_, ?_⟩
  · unfold generateOptimizations
    rw [hm]
    simp only [Except.map, Except.ok.injEq]
    cases hh : keywords.head? with
    | none => simp [List.any_append, any_single_ite, plannerDensity, Bool.decide_and]
    | some pk => simp [List.any_append, any_single_ite, plannerDensity, Bool.decide_and]
  · intro hl
    apply generateOptimizations_no_density script keywords style level hlit
    rcases hl with hl | hl
    · subst hl; rfl
    · exact (by decide : ∀ l ∈ objectProtoKeys, jsLookupGe (intensityOf l) 2 = false)
        level hl
  · intro level2
    unfold generateOptimizations
    rw [hm]
    simp only [Except.map, Except.ok.injEq, Prod.mk.injEq]
    cases hh : keywords.head? with
    | none => simp [List.filter_append, filter_single_ite_false]
    | some pk => simp [List.filter_append, filter_single_ite_false]

/-- C6 witness: a concrete low-density "moderate" request. -/
theorem claim_C6_witness :
    (∀ kw ∈ ["z"], hasRegexMeta kw = false) ∧
    ((generateOptimizations "a a a a" ["z"] "vlog" "moderate").map (fun res =>
        res.changes.any (fun c => c.type == "keyword_density" && c.priority == "medium")) =
      .ok (jsLtInt (plannerDensity "a a a a" ["z"]) 1 &&
        jsLookupGe (intensityOf "moderate") 2)) :=
  ⟨by decide, (claim_C6 "a a a a" ["z"] "vlog" "moderate" (by decide)).1⟩

theorem analyzeScript_hasCta (s : String) (kws : List String) :
    (analyzeScript s kws).engagementElements.hasCallToAction = hasCtaShareWord s := rfl

theorem generateWarnings_no_missing_cta (a : ScriptAnalysis)
    (h : a.engagementElements.hasCallToAction = true) :
    ∀ w ∈ generateWarnings a, w.type ≠ "missing_cta" := by
  intro w hw
  unfold generateWarnings at hw
  rw [h] at hw
  simp only [List.mem_append] at hw
  rcases hw with (hw | hw) | hw
  · split at hw
    · simp at hw; subst hw; simp
    · simp at hw
  · split at hw
    · simp at hw; subst hw; simp
    · simp at hw
  · simp at hw

/-- C9: for every request on which `optimize` returns a Report, the warnings
list never contains a `missing_cta` warning: warnings are computed from the
optimized script's metrics (src/index.js:284), the Rewriter's CTA-append step
guarantees the optimized script matches subscribe/like/comment
case-insensitively, and hence the optimized metrics' `hasCallToAction` flag
is always true. -/
theorem claim_C9 (req : Request) (idx : Fin 5) (now : String) (r : Report)
    (h : optimizeScript req idx now = .ok r) :
    ∀ w ∈ r.warnings, w.type ≠ "missing_cta" := by
  unfold optimizeScript at h
  split at h
  · exact absurd h (by simp)
  · rcases hG : generateOptimizations req.script (requestAllKeywords req)
        req.contentStyle req.optimizationLevel with e | o
    · rw [hG] at h; exact absurd h (by simp)
    · rw [hG] at h
      rcases hI : suggestKeywordInsertions req.script (requestPrimaryKeywords req)
          (requestSecondaryKeywords req) with e | v
      · rw [hI] at h; exact absurd h (by simp)
      · rw [hI] at h
        rcases hT : getScriptTips req.contentStyle with e | tl
        · rw [hT] at h; exact absurd h (by simp)
        · rw [hT] at h
          injection h with hr
          subst hr
          apply generateWarnings_no_missing_cta
          rw [analyzeScript_hasCta]
          exact hasCtaWord_imp_share _ (hasCtaWord_ctaStep _)

/-- C9 witness: the end-to-end scenario request yields a Report whose
warnings contain no `missing_cta`. -/
theorem claim_C9_witness :
    optimizeScript reqE2E 0 "2024-01-01T00:00:00.000Z" = .ok reportE2E ∧
    ∀ w ∈ reportE2E.warnings, w.type ≠ "missing_cta" :=
  ⟨rfl, claim_C9 reqE2E 0 "2024-01-01T00:00:00.000Z" reportE2E rfl⟩

theorem splitRunsSkip_all (p : Char → Bool) :
    ∀ l : List Char, (∀ c ∈ l, p c = true) → splitRunsSkip p l = [""] := by
  intro l
  induction l with
  | nil => intro _; rfl
  | cons c cs ih =>
    intro h
    simp only [splitRunsSkip]
    rw [if_pos (h c (List.mem_cons_self c cs))]
    exact ih fun x hx => h x (List.mem_cons_of_mem c hx)

theorem splitRuns_all (p : Char → Bool) (s : String) (hne : s.data ≠ [])
    (h : ∀ c ∈ s.data, p c = true) : splitRuns p s = ["", ""] := by
  unfold splitRuns
  cases hd : s.data with
  | nil => exact absurd hd hne
  | cons c cs =>
    simp only [splitRunsGo]
    rw [if_pos (h c (hd ▸ List.mem_cons_self c cs)),
      splitRunsSkip_all p cs (fun x hx => h x (hd ▸ List.mem_cons_of_mem c hx))]
    rfl

theorem totalKeywordMentions_zero (script : String) :
    ∀ ks : List String, (∀ kw ∈ ks, countOccCI kw script = 0) →
      ∀ a : Nat, ks.foldl (fun n kw => n + countOccCI kw script) a = a := by
  intro ks
  induction ks with
  | nil => intro _ a; rfl
  | cons kw ks ih =>
    intro h a
    rw [List.foldl_cons, h kw (List.mem_cons_self kw ks)]
    exact ih (fun x hx => h x (List.mem_cons_of_mem kw hx)) a

theorem getScriptTips_ok (style : String) (h : style ∉ objectProtoKeys) :
    ∃ l, getScriptTips style = .ok l := by
  by_cases h1 : style = "tutorial"
  · subst h1; exact ⟨_, rfl⟩
  by_cases h2 : style = "review"
  · subst h2; exact ⟨_, rfl⟩
  by_cases h3 : style = "educational"
  · subst h3; exact ⟨_, rfl⟩
  refine ⟨commonTips ++ [], ?_⟩
  unfold getScriptTips styleTips
  rw [if_neg h1, if_neg h2, if_neg h3, if_neg h]

/-- C10 counterexample: the request with the whitespace-only script `" "` and
the (non-empty) concept `" "` satisfies the claim's hypotheses, runs to
completion, and has original wordCount 0 — but its keywordDensity is the
string "Infinity", not "NaN": the keyword `" "` matches once inside the
whitespace-only script, and `1/0` is `Infinity` in JS. -/
theorem claim_C10_counterexample :
    reqWsWs.script ≠ "" ∧ (∀ c ∈ reqWsWs.script.data, jsWs c = true) ∧
    reqWsWs.concept ≠ "" ∧
    (optimizeScript reqWsWs 0 "2024-01-01T00:00:00.000Z").map (fun r =>
      (r.original.analysis.wordCount, r.original.analysis.keywordDensity)) =
      .ok (0, "Infinity") := by
  refine ⟨by decide, by decide, by decide, ?_⟩
  rfl

/-- C10 (amended): for every request whose script is non-empty but
whitespace-only and whose concept is non-empty, provided the derived keywords
are metacharacter-free and none of them occurs in the whitespace-only script
(e.g. the concept contains a non-whitespace character), and provided the
contentStyle is not an `Object.prototype` property name (for which the tips
spread throws a TypeError, see `getScriptTips`), `optimize` does not fail
with a ValidationError: it runs to completion and returns a Report whose
original metrics have wordCount 0 and keywordDensity the string "NaN".  (If a
keyword does match — e.g. concept `" "` — the density is "Infinity" instead.) -/
theorem claim_C10 (req : Request) (idx : Fin 5) (now : String)
    (hs : req.script ≠ "")
    (hws : ∀ c ∈ req.script.data, jsWs c = true)
    (hc : req.concept ≠ "")
    (hlit : ∀ kw ∈ requestAllKeywords req, hasRegexMeta kw = false)
    (hocc : ∀ kw ∈ requestAllKeywords req, countOccCI kw req.script = 0)
    (hstyle : req.contentStyle ∉ objectProtoKeys) :
    ∃ r, optimizeScript req idx now = .ok r ∧
      r.original.analysis.wordCount = 0 ∧
      r.original.analysis.keywordDensity = "NaN" := by
  have hdata : req.script.data ≠ [] := fun hd => hs (congrArg String.mk hd)
  have hword : (splitRuns jsWs req.script).filter (fun w => w.length > 0) = [] := by
    rw [splitRuns_all jsWs req.script hdata hws]
    rfl
  have hprim : ∀ kw ∈ requestPrimaryKeywords req, hasRegexMeta kw = false := by
    intro kw hk
    exact hlit kw (List.mem_append_left _ (List.mem_append_left _ hk))
  have hsec : ∀ kw ∈ requestSecondaryKeywords req, hasRegexMeta kw = false := by
    intro kw hk
    exact hlit kw (List.mem_append_left _ (List.mem_append_right _ hk))
  obtain ⟨v, hIv⟩ := suggestKeywordInsertions_ok req.script
    (requestPrimaryKeywords req) (requestSecondaryKeywords req) hprim hsec
  obtain ⟨tl, hT⟩ := getScriptTips_ok req.contentStyle hstyle
  unfold optimizeScript
  rw [if_neg (fun hor => hor.elim hs hc)]
  have hm := plannerMentions_eq (requestAllKeywords req) req.script hlit
  rcases hG : generateOptimizations req.script (requestAllKeywords req)
      req.contentStyle req.optimizationLevel with e | o
  · exfalso
    unfold generateOptimizations at hG
    rw [hm] at hG
    exact Except.noConfusion hG
  · rw [hIv, hT]
    refine ⟨_, rfl, ?_, ?_⟩
    · show ((splitRuns jsWs req.script).filter (fun w => w.length > 0)).length = 0
      rw [hword]
      rfl
    · show jsToFixed2 (jsMul (jsDiv
          (jsOfNat (totalKeywordMentionsOf req.script (requestAllKeywords req)))
          (jsOfNat ((splitRuns jsWs req.script).filter (fun w => w.length > 0)).length))
          (jsOfNat 100)) = "NaN"
      unfold totalKeywordMentionsOf
      rw [totalKeywordMentions_zero req.script (requestAllKeywords req) hocc 0, hword]
      rfl

/-- C10 witness: whitespace-only script `" "` with concept `"gardening"`. -/
theorem claim_C10_witness :
    ∃ r, optimizeScript reqWsOk 0 "2024-01-01T00:00:00.000Z" = .ok r ∧
      r.original.analysis.wordCount = 0 ∧
      r.original.analysis.keywordDensity = "NaN" :=
  claim_C10 reqWsOk 0 "2024-01-01T00:00:00.000Z" (by decide) (by decide) (by decide)
    (by decide) (by decide) (by decide)

end YTSO
